import Mathlib

/-!
# Verification of the simbrief_hub fetch/parse/cache core

A shallow embedding, in Lean 4, of the core of the `simbrief_hub` X-Plane
plugin: the OFP and CDM download coordinators (`sbh.cpp`), the OFP parser
result construction (`ofp_get_parse.cpp`), and the CDM server directory,
configuration loader and record parser (`cdm_get_parse.cpp`).

External collaborators (HTTP transport, the nlohmann JSON library, the
X-Plane widget/dataref API) are modelled as oracles: an oracle value
describes the observable outcome of one interaction with the collaborator
(network failure, malformed payload, or the decoded payload itself).
Float-typed timer state (`now`, `air_time`, `cdm_next_poll_ts`) is outside
the embedding; it does not feed back into any of the record, sequence or
directory state modelled here.

Machine integers (`int seqno`, `int cdm_seqno`, retry counters) are
modelled as `Nat`/`Int`; they are only ever stepped by one from small
starting values, so overflow does not arise on any path considered.
-/

/-- The success sentinel `kSuccess` from `sbh.h`. -/
def kSuccess : String := "Success"

/-! ## OFP data model (`struct OfpInfo`, `sbh.h`)

One field per member of the C++ struct: the two `int` members `stale`
(used as a boolean) and `seqno`, then the 33 `std::string` data fields in
declaration order.  A freshly constructed record (`std::make_unique<OfpInfo>()`)
has all defaults: `stale = false`, `seqno = 0`, every string empty. -/
structure OfpInfo where
  stale : Bool := false
  seqno : Nat := 0
  units : String := ""
  status : String := ""
  icao_airline : String := ""
  flight_number : String := ""
  aircraft_icao : String := ""
  max_passengers : String := ""
  fuel_plan_ramp : String := ""
  origin : String := ""
  origin_rwy : String := ""
  sid : String := ""
  destination : String := ""
  alternate : String := ""
  destination_rwy : String := ""
  ci : String := ""
  altitude : String := ""
  tropopause : String := ""
  isa_dev : String := ""
  wind_component : String := ""
  oew : String := ""
  pax_count : String := ""
  freight : String := ""
  payload : String := ""
  route : String := ""
  alt_route : String := ""
  time_generated : String := ""
  est_time_enroute : String := ""
  est_out : String := ""
  est_off : String := ""
  est_on : String := ""
  est_in : String := ""
  fuel_taxi : String := ""
  max_zfw : String := ""
  max_tow : String := ""
  dx_rmk : String := ""
deriving Repr, DecidableEq

/-- True iff every data field of the record (everything except `stale`,
`seqno` and `status`) is the empty string, as in a freshly constructed
`OfpInfo` before any extraction has run. -/
def OfpInfo.dataFieldsEmpty (i : OfpInfo) : Bool :=
  i.units == "" && i.icao_airline == "" && i.flight_number == "" &&
  i.aircraft_icao == "" && i.max_passengers == "" && i.fuel_plan_ramp == "" &&
  i.origin == "" && i.origin_rwy == "" && i.sid == "" && i.destination == "" &&
  i.alternate == "" && i.destination_rwy == "" && i.ci == "" &&
  i.altitude == "" && i.tropopause == "" && i.isa_dev == "" &&
  i.wind_component == "" && i.oew == "" && i.pax_count == "" &&
  i.freight == "" && i.payload == "" && i.route == "" && i.alt_route == "" &&
  i.time_generated == "" && i.est_time_enroute == "" && i.est_out == "" &&
  i.est_off == "" && i.est_on == "" && i.est_in == "" && i.fuel_taxi == "" &&
  i.max_zfw == "" && i.max_tow == "" && i.dx_rmk == ""

/-! ## The OFP parser (`OfpGetParse`, `ofp_get_parse.cpp`)

`OfpGetParse` builds a fresh `OfpInfo`, performs `HttpGet`, parses the JSON
and extracts the mandatory fields.  The interaction with the network and
the JSON library is an oracle:

* `netError`       : `HttpGet` returned `false`;
* `invalidJson`    : `json::parse` threw;
* `parsedStatus st rest` : the document parsed and `fetch.status` decoded
  to `st`; `rest` describes how the remaining extraction goes (it is only
  reached when `st` is the success sentinel).

For the extraction itself:

* `schemaViolation part` : some mandatory key was absent or mistyped, so a
  `json` exception fired mid-extraction; `part` carries whatever data
  fields had already been assigned into the fresh record before the throw
  (its `stale`/`seqno`/`status` components are ignored: the code overwrites
  them on this path);
* `extracted d` : every mandatory key was present; `d` carries the decoded
  data fields (again with `stale`/`seqno`/`status` overridden by the code).
-/
inductive OfpParseRest where
  | schemaViolation (part : OfpInfo)
  | extracted (d : OfpInfo)
deriving Repr, DecidableEq

inductive OfpFetchOutcome where
  | netError
  | invalidJson
  | parsedStatus (st : String) (rest : OfpParseRest)
deriving Repr, DecidableEq

/-- An outcome whose `OfpGetParse` run does not end with status `Success`. -/
def OfpFetchOutcome.isFailure : OfpFetchOutcome → Bool
  | .netError => true
  | .invalidJson => true
  | .parsedStatus st rest =>
    match rest with
    | .schemaViolation _ => true
    | .extracted _ => st != kSuccess

/-- An outcome that fails before any data field is extracted (network
error, unparseable JSON, or an upstream non-`Success` status). -/
def OfpFetchOutcome.isEarlyFailure : OfpFetchOutcome → Bool
  | .netError => true
  | .invalidJson => true
  | .parsedStatus st rest =>
    match rest with
    | .schemaViolation _ => false
    | .extracted _ => st != kSuccess

/-- `OfpGetParse` (`ofp_get_parse.cpp`): given the oracle outcome `oc` and
the current value `g` of the file-static success counter `seqno`, returns
the freshly built record written into `ofp_info_new`, the new counter
value and the function's boolean result.

The fresh record always replaces whatever unique_ptr was passed in
(`ofp_info = std::make_unique<OfpInfo>()` is the first statement), which
is why the previous record does not appear as an argument. -/
def OfpGetParse (oc : OfpFetchOutcome) (g : Nat) : OfpInfo × Nat × Bool :=
  match oc with
  | .netError => ({ status := "Network error", stale := true }, g, false)
  | .invalidJson => ({ status := "Invalid JSON data", stale := true }, g, false)
  | .parsedStatus st rest =>
    if st != kSuccess then
      ({ status := st, stale := true }, g, false)
    else
      match rest with
      | .schemaViolation part =>
        ({ part with status := "Invalid JSON data", stale := true, seqno := 0 }, g, false)
      | .extracted d =>
        ({ d with status := kSuccess, stale := false, seqno := g + 1 }, g + 1, true)

/-! ## C `atoi` and the altitude rewrite in `OfpCheckAsyncDownload` -/

/-- The characters C's `isspace` accepts (space, tab, newline, vertical
tab, form feed, carriage return). -/
def IsSpaceC (c : Char) : Bool :=
  c == ' ' || c == '\t' || c == '\n' || c == Char.ofNat 11 || c == Char.ofNat 12 || c == '\r'

/-- Value of the maximal digit prefix, accumulator style, as `atoi` scans. -/
def AtoiDigits : List Char → Nat → Nat
  | [], acc => acc
  | c :: cs, acc => if c.isDigit then AtoiDigits cs (acc * 10 + (c.toNat - 48)) else acc

/-- C `atoi`: skip leading whitespace, optional sign, then the value of the
maximal digit prefix (0 if there is none). -/
def Atoi (s : String) : Int :=
  let cs := s.data.dropWhile IsSpaceC
  match cs with
  | '-' :: rest => - (AtoiDigits rest 0 : Int)
  | '+' :: rest => (AtoiDigits rest 0 : Int)
  | _ => (AtoiDigits cs 0 : Int)

/-! ## The OFP download coordinator (`sbh.cpp`) -/

/-- The flight-loop-owned OFP coordinator state of `sbh.cpp`:
`ofp_info` (the cached record), `ofp_download_active`, the one-shot result
handoff, and the `cdm_airport` variable written on a successful collect.

`pending = some r` models "the background task has finished: it wrote `r`
into `ofp_info_new` and the future is ready"; `pending = none` with
`download_active = true` models a still-running task.

`started`/`collected` are instrumentation counters (not C++ state): they
count launches of the background fetch task and collections of its
result, so the single-flight property can be stated by counting underlying
fetch invocations. -/
structure OfpState where
  ofp_info : Option OfpInfo := none
  download_active : Bool := false
  pending : Option OfpInfo := none
  cdm_airport : String := ""
  started : Nat := 0
  collected : Nat := 0
deriving Repr, DecidableEq

/-- `OfpCheckAsyncDownload` (`sbh.cpp` lines 193-231).  Returns
`true` iff a download is still in progress.  When the future is ready it
unconditionally moves `ofp_info_new` into `ofp_info`; on a non-`Success`
status it stops there (the widget line shows the status); on `Success` it
rewrites `altitude` to `atoi(altitude) / 100` rendered with `"%d"` and
copies `origin` into `cdm_airport`.  (The float timer writes
`cdm_next_poll_ts = now` and `air_time = 0` are outside the embedding.) -/
def OfpCheckAsyncDownload (s : OfpState) : Bool × OfpState :=
  if s.download_active then
    match s.pending with
    | none => (true, s)
    | some info =>
      let s1 := { s with download_active := false, pending := none,
                         ofp_info := some info, collected := s.collected + 1 }
      if info.status != kSuccess then
        (false, s1)
      else
        let info2 := { info with altitude := toString ((Atoi info.altitude).tdiv 100) }
        (false, { s1 with ofp_info := some info2, cdm_airport := info2.origin })
  else (false, s)

/-- `FetchOfp` (`sbh.cpp` lines 262-275): with an unconfigured pilot id the
request is dropped; with a download already active the request is ignored;
otherwise one background task is launched and the in-flight flag set. -/
def FetchOfp (pilot_id : String) (s : OfpState) : OfpState :=
  if pilot_id == "" then s
  else if s.download_active then s
  else { s with download_active := true, started := s.started + 1 }

/-- Completion of the background OFP task: `OfpGetParse` runs against the
oracle outcome `oc`, writes its record into the result slot and readies
the future.  A no-op unless a task is actually in flight. -/
def OfpTaskFinish (oc : OfpFetchOutcome) (g : Nat) (s : OfpState) : Nat × OfpState :=
  if s.download_active && s.pending.isNone then
    let (info, g', _) := OfpGetParse oc g
    (g', { s with pending := some info })
  else (g, s)

/-- One complete OFP fetch cycle as driven by the flight loop: a fetch
request, the background task running to completion, and the next flight
loop tick collecting the result.  `g` is the parser's static success
counter. -/
def OfpRound (pilot_id : String) (oc : OfpFetchOutcome) (gs : Nat × OfpState) : Nat × OfpState :=
  let s1 := FetchOfp pilot_id gs.2
  let (g2, s2) := OfpTaskFinish oc gs.1 s1
  (g2, (OfpCheckAsyncDownload s2).2)

/-! ## CDM data model and download coordinator -/

/-- `struct CdmInfo` (`sbh.h`): `int seqno` plus six `std::string` fields. -/
structure CdmInfo where
  seqno : Nat := 0
  url : String := ""
  status : String := ""
  tobt : String := ""
  tsat : String := ""
  runway : String := ""
  sid : String := ""
deriving Repr, DecidableEq

/-- The flight-loop-owned CDM coordinator state of `sbh.cpp`: the cached
record, the static counter `cdm_seqno`, `cdm_download_active` and the
one-shot result handoff (`cdm_info_new` plus future readiness), with the
same `started`/`collected` instrumentation as `OfpState`. -/
structure CdmState where
  cdm_info : Option CdmInfo := none
  cdm_seqno : Nat := 0
  download_active : Bool := false
  pending : Option CdmInfo := none
  started : Nat := 0
  collected : Nat := 0
deriving Repr, DecidableEq

/-- `CdmCheckAsyncDownload` (`sbh.cpp` lines 236-260).  When the future is
ready: if a record is cached and agrees with the new one on all five
compared fields (`status`, `tobt`, `tsat`, `runway`, `sid` — `url` is not
compared), the new record is discarded; otherwise the new record is
published with `seqno = ++cdm_seqno`.  (The float write
`cdm_next_poll_ts = now + kCdmPollInterval` is outside the embedding.) -/
def CdmCheckAsyncDownload (s : CdmState) : Bool × CdmState :=
  if s.download_active then
    match s.pending with
    | none => (true, s)
    | some n =>
      let s1 := { s with download_active := false, pending := none,
                         collected := s.collected + 1 }
      let unchanged :=
        match s1.cdm_info with
        | some r => r.status == n.status && r.tobt == n.tobt && r.tsat == n.tsat
            && r.runway == n.runway && r.sid == n.sid
        | none => false
      if unchanged then
        (false, s1)
      else
        (false, { s1 with cdm_info := some { n with seqno := s1.cdm_seqno + 1 },
                          cdm_seqno := s1.cdm_seqno + 1 })
  else (false, s)

/-- `FetchCdm` (`sbh.cpp` lines 277-291): an active download makes the
request a silent no-op; an empty pilot id drops it; otherwise one
background task is launched. -/
def FetchCdm (pilot_id : String) (s : CdmState) : CdmState :=
  if s.download_active then s
  else if pilot_id == "" then s
  else { s with download_active := true, started := s.started + 1 }

/-- Completion of the background CDM task: the record computed by
`CdmGetParse` lands in the result slot and the future becomes ready. -/
def CdmTaskFinish (n : CdmInfo) (s : CdmState) : CdmState :=
  if s.download_active && s.pending.isNone then { s with pending := some n }
  else s

/-! ## The CDM server directory (`cdm_get_parse.cpp`) -/

/-- `enum CdmProtocol`. -/
inductive CdmProtocol where
  | invalid
  | rpuig
  | vacdmV1
deriving Repr, DecidableEq

/-- `struct Airport`: one airport served by a server. -/
structure Airport where
  icao : String := ""
  url : String := ""
  proto : CdmProtocol := .invalid
deriving Repr, DecidableEq

/-- `kMaxRetries` from `cdm_get_parse.cpp`. -/
def kMaxRetries : Int := 3

/-- `class Server`: configuration (`name_`, `url_`, `proto_`), the lazy
roster (`retrieved_`, `airports_`) and the retry counter `retries_left_`.
The `std::unordered_map` roster is modelled as an association list with
overwrite-on-insert. -/
structure Server where
  name : String := ""
  url : String := ""
  proto : CdmProtocol := .invalid
  retrieved : Bool := false
  retries_left : Int := kMaxRetries
  airports : List (String × Airport) := []
deriving Repr, DecidableEq

/-- `Server::is_dead()`: the retry budget is exhausted. -/
def Server.is_dead (s : Server) : Bool := s.retries_left ≤ 0

/-- `airports_[icao] = a` on a `std::unordered_map`: overwrite the entry
for the key if present, insert otherwise. -/
def AirportsInsert (k : String) (a : Airport) : List (String × Airport) → List (String × Airport)
  | [] => [(k, a)]
  | (k', a') :: rest =>
    if k' == k then (k, a) :: rest else (k', a') :: AirportsInsert k a rest

/-- `airports_.find(icao)`. -/
def AirportsFind (k : String) : List (String × Airport) → Option Airport
  | [] => none
  | (k', a) :: rest => if k' == k then some a else AirportsFind k rest

/-- Oracle for one roster download (`GetJson` on the roster URL plus the
subsequent decode loop):

* `fail`          : `GetJson` returned the null object (HTTP failure or
  unparseable JSON);
* `badData part`  : the JSON arrived but a key/type error fired during the
  decode loop, after `part` entries had already been inserted;
* `ok entries`    : the decode loop ran to completion over `entries`.

Each entry is `(icao, feedUrl)`; a vACDM roster carries bare icao codes,
so the second component is ignored for such a server. -/
inductive RosterFetch where
  | fail
  | badData (part : List (String × String))
  | ok (entries : List (String × String))
deriving Repr, DecidableEq

/-- Insert the decoded roster entries into the airports map, in order.
For `rpuig` the per-airport URL from the payload is used
(`url_list[0]`); for `vacdm_v1` the server's own base URL is the feed
root for every airport. -/
def InsertEntries (sv : Server) (entries : List (String × String)) : List (String × Airport) :=
  entries.foldl
    (fun m e =>
      match sv.proto with
      | .rpuig => AirportsInsert e.1 { icao := e.1, url := e.2, proto := sv.proto } m
      | .vacdmV1 => AirportsInsert e.1 { icao := e.1, url := sv.url, proto := sv.proto } m
      | .invalid => m)
    sv.airports

/-- `Server::RetrieveAirports` (`cdm_get_parse.cpp` lines 124-174):
already-retrieved rosters return immediately (no network call); a null
`GetJson` result decrements `retries_left_` and fails; a decode exception
fails without touching the counter; success marks the roster retrieved.
Returns (function result, updated server, number of network calls made).

Servers carrying `kProtoInvalid` cannot be constructed by `CdmInit`; for
them the code throws before any network call, here rendered as a plain
failure with no state change. -/
def Server.RetrieveAirports (sv : Server) (r : RosterFetch) : Bool × Server × Nat :=
  if sv.retrieved then (true, sv, 0)
  else if sv.proto == .invalid then (false, sv, 0)
  else
    match r with
    | .fail => (false, { sv with retries_left := sv.retries_left - 1 }, 1)
    | .badData part => (false, { sv with airports := InsertEntries sv part }, 1)
    | .ok entries =>
      (true, { sv with retrieved := true, airports := InsertEntries sv entries }, 1)

/-- The whole directory: the `servers` vector plus the function-static
memo of `FindUrl` (`icao_c`, `url_c`, `proto_c`), zero-initialized at
process start. -/
structure CdmDir where
  servers : List Server := []
  icao_c : String := ""
  url_c : String := ""
  proto_c : CdmProtocol := .invalid
deriving Repr, DecidableEq

/-- Result of the scan loop inside `FindUrl`: the hit (if any), the
updated servers, the unconsumed roster oracles and the number of roster
network calls performed. -/
structure FindUrlOut where
  hit : Option (String × CdmProtocol) := none
  servers : List Server := []
  oracles : List RosterFetch := []
  calls : Nat := 0
deriving Repr, DecidableEq

/-- The `for (auto& s : servers)` loop of `FindUrl` (`cdm_get_parse.cpp`
lines 187-205): dead servers are skipped outright; a failed roster
retrieval moves on to the next server; a hit returns that server's feed.
One oracle value is consumed per actual network call. -/
def FindUrlLoop (icao : String) : List Server → List RosterFetch → FindUrlOut
  | [], rs => { oracles := rs }
  | sv :: rest, rs =>
    if sv.is_dead then
      let o := FindUrlLoop icao rest rs
      { o with servers := sv :: o.servers }
    else
      let (res, sv', calls) := sv.RetrieveAirports (rs.headD .fail)
      let rs' := rs.drop calls
      if res then
        match AirportsFind icao sv'.airports with
        | some a => { hit := some (a.url, a.proto), servers := sv' :: rest,
                      oracles := rs', calls := calls }
        | none =>
          let o := FindUrlLoop icao rest rs'
          { o with servers := sv' :: o.servers, calls := calls + o.calls }
      else
        let o := FindUrlLoop icao rest rs'
        { o with servers := sv' :: o.servers, calls := calls + o.calls }

/-- Result of `FindUrl`: the returned pair plus the updated directory and
the network-call accounting. -/
structure FindUrlRes where
  url : String := ""
  proto : CdmProtocol := .invalid
  dir : CdmDir := {}
  oracles : List RosterFetch := []
  calls : Nat := 0
deriving Repr, DecidableEq

/-- `FindUrl` (`cdm_get_parse.cpp` lines 179-208): a memo hit answers with
no server interaction at all; otherwise the servers are scanned in
configured order and only a successful lookup updates the memo. -/
def FindUrl (d : CdmDir) (rs : List RosterFetch) (icao : String) : FindUrlRes :=
  if icao == d.icao_c then
    { url := d.url_c, proto := d.proto_c, dir := d, oracles := rs, calls := 0 }
  else
    let o := FindUrlLoop icao d.servers rs
    match o.hit with
    | some (u, p) =>
      { url := u, proto := p,
        dir := { servers := o.servers, icao_c := icao, url_c := u, proto_c := p },
        oracles := o.oracles, calls := o.calls }
    | none =>
      { url := "", proto := .invalid, dir := { d with servers := o.servers },
        oracles := o.oracles, calls := o.calls }

/-! ## Configuration loading (`CdmInit`, `cdm_get_parse.cpp` lines 210-259) -/

/-- One decoded entry of the `"servers"` array of the configuration JSON. -/
structure CfgServer where
  name : String := ""
  protocol : String := ""
  url : String := ""
  enabled : Bool := true
deriving Repr, DecidableEq

/-- The server a recognized, enabled configuration entry registers:
`servers.push_back(std::make_unique<Server>(name, url, proto))`. -/
def MkServer (name url : String) (proto : CdmProtocol) : Server :=
  { name := name, url := url, proto := proto }

/-- A configuration entry that does not abort `CdmInit`: it is either
disabled (skipped with a notice) or carries a recognized protocol tag. -/
def CfgServer.recognized (e : CfgServer) : Bool :=
  !e.enabled || e.protocol == "rpuig" || e.protocol == "vacdm_v1"

/-- The server registered by one entry, if any: disabled entries register
nothing, recognized enabled entries register one server. -/
def CfgServer.server (e : CfgServer) : Option Server :=
  if !e.enabled then none
  else if e.protocol == "rpuig" then some (MkServer e.name e.url .rpuig)
  else if e.protocol == "vacdm_v1" then some (MkServer e.name e.url .vacdmV1)
  else none

/-- The `for (const auto& s : cfg.at("servers"))` loop of `CdmInit`:
`acc` is the global `servers` vector as the loop runs.  Disabled entries
are skipped; recognized entries are pushed onto the vector; an
unrecognized protocol tag returns `false` immediately, keeping everything
pushed so far. -/
def CdmInitLoop (acc : List Server) : List CfgServer → Bool × List Server
  | [] => (true, acc)
  | e :: rest =>
    if !e.enabled then CdmInitLoop acc rest
    else if e.protocol == "rpuig" then
      CdmInitLoop (acc ++ [MkServer e.name e.url .rpuig]) rest
    else if e.protocol == "vacdm_v1" then
      CdmInitLoop (acc ++ [MkServer e.name e.url .vacdmV1]) rest
    else (false, acc)

/-- `CdmInit` on an already decoded configuration: `servers0` is the
global `servers` vector before the call (the file read, magic-marker scan
and JSON parse that precede the loop leave the vector untouched on their
own failure paths).  Returns the function result and the vector after the
call. -/
def CdmInit (servers0 : List Server) (cfg : List CfgServer) : Bool × List Server :=
  CdmInitLoop servers0 cfg

/-! ## `ExtractHHMM` and `CdmGetParse` (`cdm_get_parse.cpp`) -/

/-- The Unix epoch sentinel the vACDM feed uses for "no time". -/
def kEpochSentinel : String := "1969-12-31T23:59:59.999Z"

/-- `ExtractHHMM` (`cdm_get_parse.cpp` lines 262-267):
`time.substr(11, 2) + time.substr(14, 2)` guarded by the sentinel and the
minimum length.  `substr(pos, 2)` on a string of length at least 16 is the
two characters at positions `pos` and `pos + 1`. -/
def ExtractHHMM (time : String) : String :=
  if time == kEpochSentinel || time.length < 16 then ""
  else ⟨(time.data.drop 11).take 2 ++ (time.data.drop 14).take 2⟩

/-- Oracle for the flight-data download and decode inside `CdmGetParse`
(`GetJson` on the feed URL plus the extraction `try` blocks):

* `fetchFail`    : `GetJson` returned the null object;
* `keyMissing`   : a `json::out_of_range` fired during extraction (the
  flight or one of its mandatory keys is absent);
* `otherError m` : some other `json` exception with message `m` fired;
* `okRecord t ts rw sd` : the payload decoded, yielding the raw `tobt`,
  `tsat`, runway and SID strings for the callsign. -/
inductive CdmWire where
  | fetchFail
  | keyMissing
  | otherError (msg : String)
  | okRecord (tobt tsat runway sid : String)
deriving Repr, DecidableEq

/-- `CdmGetParse` (`cdm_get_parse.cpp` lines 271-348): resolve the feed
via `FindUrl`, then fetch and decode per protocol.  The vACDM branch
appends the per-pilot path to the URL and runs the timestamps through
`ExtractHHMM`; its `out_of_range` handler reports `"Flight not found"`
and its generic handler reports the exception message.  The rpuig branch
stores the raw fields; all its failure paths fall through to the final
`"Flight not found"`.  Returns the record written into `cdm_info_new`,
the function result, and the updated directory. -/
def CdmGetParse (d : CdmDir) (rs : List RosterFetch) (wire : CdmWire)
    (arpt_icao callsign : String) : CdmInfo × Bool × CdmDir :=
  let f := FindUrl d rs arpt_icao
  if f.url == "" then
    ({ status := "Feed for airport not found" }, false, f.dir)
  else
    match f.proto with
    | .vacdmV1 =>
      let u := f.url ++ "/api/v1/pilots/" ++ callsign
      match wire with
      | .fetchFail => ({ url := u, status := "Failed to retrieve CDM data" }, false, f.dir)
      | .keyMissing => ({ url := u, status := "Flight not found" }, false, f.dir)
      | .otherError m => ({ url := u, status := m }, false, f.dir)
      | .okRecord t ts rw sd =>
        ({ url := u, status := kSuccess, tobt := ExtractHHMM t, tsat := ExtractHHMM ts,
           runway := rw, sid := sd }, true, f.dir)
    | .rpuig =>
      match wire with
      | .fetchFail => ({ url := f.url, status := "Failed to retrieve CDM data" }, false, f.dir)
      | .keyMissing => ({ url := f.url, status := "Flight not found" }, false, f.dir)
      | .otherError _ => ({ url := f.url, status := "Flight not found" }, false, f.dir)
      | .okRecord t ts rw sd =>
        ({ url := f.url, status := kSuccess, tobt := t, tsat := ts,
           runway := rw, sid := sd }, true, f.dir)
    | .invalid => ({ url := f.url, status := "Flight not found" }, false, f.dir)

/-! ## The generic dataref accessor (`GenericDataAcc`, `sbh.cpp` lines 605-617) -/

/-- The NUL terminator byte. -/
def cNul : Char := Char.ofNat 0

/-- `GenericDataAcc`: `data` is the cached `std::string` (as its character
list), `values_null` says whether the caller passed a null buffer (the
length-query mode), `ofs`/`n` are the C `int` arguments.  Returns the
`int` result and the bytes copied into the caller's buffer, read from the
NUL-terminated buffer `data ++ [NUL]` starting at `ofs`. -/
def GenericDataAcc (data : List Char) (values_null : Bool) (ofs n : Int) :
    Int × List Char :=
  let len : Int := data.length + 1
  if values_null then (len, [])
  else if n ≤ 0 || ofs < 0 || ofs ≥ len then (0, [])
  else
    let m := min n (len - ofs)
    (m, ((data ++ [cNul]).drop ofs.toNat).take m.toNat)

/-! ## Events driving the two coordinators

Everything that touches coordinator state is fired synchronously by the
flight loop or is the one-shot completion of the background task, so a
run of the system restricted to one data kind is a fold of these events. -/

/-- Events of the OFP coordinator: a fetch request (menu button, `sbh/fetch`
command or plane-loaded message), completion of the background task with
oracle outcome `oc`, and a flight-loop tick running
`OfpCheckAsyncDownload`. -/
inductive OfpEvent where
  | request (pilot_id : String)
  | finish (oc : OfpFetchOutcome)
  | tick
deriving Repr

/-- One step of the OFP coordinator; the `Nat` component is the parser's
static success counter. -/
def OfpStep (gs : Nat × OfpState) : OfpEvent → Nat × OfpState
  | .request p => (gs.1, FetchOfp p gs.2)
  | .finish oc => OfpTaskFinish oc gs.1 gs.2
  | .tick => (gs.1, (OfpCheckAsyncDownload gs.2).2)

/-- Events of the CDM coordinator: a fetch request (from the flight-loop
poll), completion of the background task carrying the record `CdmGetParse`
produced, and a flight-loop tick running `CdmCheckAsyncDownload`. -/
inductive CdmEvent where
  | request (pilot_id : String)
  | finish (n : CdmInfo)
  | tick
deriving Repr

/-- One step of the CDM coordinator. -/
def CdmStep (s : CdmState) : CdmEvent → CdmState
  | .request p => FetchCdm p s
  | .finish n => CdmTaskFinish n s
  | .tick => (CdmCheckAsyncDownload s).2

/-- The single-flight bookkeeping invariant: the number of background
tasks launched exceeds the number of collected results by exactly the
in-flight flag. -/
def OfpSfInv (s : OfpState) : Prop :=
  s.started = s.collected + (if s.download_active then 1 else 0)

/-- Same invariant for the CDM coordinator. -/
def CdmSfInv (s : CdmState) : Prop :=
  s.started = s.collected + (if s.download_active then 1 else 0)

/-! # Theorems -/

theorem OfpSfInv_step (gs : Nat × OfpState) (e : OfpEvent) (h : OfpSfInv gs.2) :
    OfpSfInv (OfpStep gs e).2 := by
  rcases gs with ⟨g, s⟩
  unfold OfpSfInv at h ⊢
  cases e with
  | request p =>
    simp only [OfpStep, FetchOfp]
    by_cases hp : (p == "") = true
    · simp only [hp, if_true]
      exact h
    · by_cases ha : s.download_active
      · simp [hp, ha, h] at h ⊢
        omega
      · simp [hp, ha] at h ⊢
        omega
  | finish oc =>
    simp only [OfpStep, OfpTaskFinish]
    by_cases hc : (s.download_active && s.pending.isNone) = true
    · simp only [hc, if_true]
      simp only [Bool.and_eq_true] at hc
      simp [hc.1, h] at h ⊢
      omega
    · simp only [hc, if_false, Bool.false_eq_true]
      exact h
  | tick =>
    simp only [OfpStep, OfpCheckAsyncDownload]
    by_cases ha : s.download_active
    · simp only [ha, if_true]
      match hp : s.pending with
      | none => simpa [ha] using h
      | some info =>
        by_cases hs : (info.status != kSuccess) = true
        · simp [hs, ha] at h ⊢
          omega
        · simp [hs, ha] at h ⊢
          omega
    · simpa [ha] using h

theorem CdmSfInv_step (s : CdmState) (e : CdmEvent) (h : CdmSfInv s) :
    CdmSfInv (CdmStep s e) := by
  unfold CdmSfInv at h ⊢
  cases e with
  | request p =>
    simp only [CdmStep, FetchCdm]
    by_cases ha : s.download_active
    · simp only [ha, if_true]
      simpa [ha] using h
    · by_cases hp : (p == "") = true
      · simp only [ha, hp, if_true, if_false, Bool.false_eq_true]
        simpa [ha] using h
      · simp [ha, hp] at h ⊢
        omega
  | finish n =>
    simp only [CdmStep, CdmTaskFinish]
    by_cases hc : (s.download_active && s.pending.isNone) = true
    · simpa [hc] using h
    · simp only [hc, if_false, Bool.false_eq_true]
      exact h
  | tick =>
    simp only [CdmStep, CdmCheckAsyncDownload]
    by_cases ha : s.download_active
    · simp only [ha, if_true]
      match hp : s.pending with
      | none => simpa [ha] using h
      | some n =>
        by_cases hu : (match s.cdm_info with
          | some r => r.status == n.status && r.tobt == n.tobt && r.tsat == n.tsat
              && r.runway == n.runway && r.sid == n.sid
          | none => false) = true
        · simp [hu, ha] at h ⊢
          omega
        · simp [hu, ha] at h ⊢
          omega
    · simpa [ha] using h

theorem OfpSfInv_run (es : List OfpEvent) (gs : Nat × OfpState) (h : OfpSfInv gs.2) :
    OfpSfInv (es.foldl OfpStep gs).2 := by
  induction es generalizing gs with
  | nil => exact h
  | cons e es ih => exact ih _ (OfpSfInv_step gs e h)

theorem CdmSfInv_run (es : List CdmEvent) (s : CdmState) (h : CdmSfInv s) :
    CdmSfInv (es.foldl CdmStep s) := by
  induction es generalizing s with
  | nil => exact h
  | cons e es ih => exact ih _ (CdmSfInv_step s e h)

/-- C6: for each data kind, a fetch request arriving while a download is
active is a complete no-op (same state, no new background task), and along
every event sequence from the initial state the number of launched
background tasks never exceeds the number of collected results by more
than one: at most one fetch per kind is ever outstanding. -/
theorem C6_single_flight (p : String) (g : Nat) (s : OfpState) (t : CdmState)
    (hs : s.download_active = true) (ht : t.download_active = true) :
    FetchOfp p s = s ∧ FetchCdm p t = t ∧
    (∀ es : List OfpEvent,
      (es.foldl OfpStep (g, {})).2.started ≤ (es.foldl OfpStep (g, {})).2.collected + 1) ∧
    (∀ es : List CdmEvent,
      (es.foldl CdmStep {}).started ≤ (es.foldl CdmStep {}).collected + 1) := by
  refine ⟨?_, ?_, ?_, ?_⟩
  · unfold FetchOfp
    by_cases hp : (p == "") = true <;> simp [hp, hs]
  · unfold FetchCdm
    simp [ht]
  · intro es
    have h := OfpSfInv_run es (g, {}) (by simp [OfpSfInv])
    unfold OfpSfInv at h
    split at h <;> omega
  · intro es
    have h := CdmSfInv_run es {} (by simp [CdmSfInv])
    unfold CdmSfInv at h
    split at h <;> omega

/-- Witness for C6: with a download in flight for each kind, a second
request leaves the state untouched, and a concrete request-finish-tick
trace never has more than one task outstanding. -/
theorem C6_single_flight_witness :
    FetchOfp "123" { download_active := true, started := 1 } =
      { download_active := true, started := 1 } ∧
    ([OfpEvent.request "123", .finish .netError, .tick, .request "123"].foldl
        OfpStep (0, {})).2.started ≤
      ([OfpEvent.request "123", .finish .netError, .tick, .request "123"].foldl
        OfpStep (0, {})).2.collected + 1 := by
  have h := C6_single_flight "123" 0
    { download_active := true, started := 1 } { download_active := true } rfl rfl
  exact ⟨h.1, h.2.2.1 [OfpEvent.request "123", .finish .netError, .tick, .request "123"]⟩

/-- Two consecutive elements of a list, written as `take 2` of a `drop`
(the shape `substr(i, 2)` produces). -/
theorem take_two_drop (l : List Char) (i : Nat) (h : i + 1 < l.length) :
    (l.drop i).take 2 = [l.get ⟨i, by omega⟩, l.get ⟨i + 1, h⟩] := by
  rw [List.drop_eq_getElem_cons (show i < l.length by omega),
      List.drop_eq_getElem_cons (show i + 1 < l.length from h)]
  rfl

/-- The cached CDM record's seqno always equals the static counter
`cdm_seqno` (both only change together, in the publish branch of
`CdmCheckAsyncDownload`). -/
def CdmSeqnoConsistent (s : CdmState) : Prop :=
  ∀ r, s.cdm_info = some r → r.seqno = s.cdm_seqno

/-- `CdmSeqnoConsistent` holds initially (nothing cached) and is preserved
by every coordinator step; it justifies the `r.seqno = s.cdm_seqno`
hypotheses of the de-duplication theorems below. -/
theorem CdmSeqnoConsistent_step (s : CdmState) (e : CdmEvent)
    (h : CdmSeqnoConsistent s) : CdmSeqnoConsistent (CdmStep s e) := by
  cases e with
  | request p =>
    intro r hr
    simp only [CdmStep, FetchCdm] at hr ⊢
    by_cases ha : s.download_active
    · simp only [ha, if_true] at hr ⊢
      exact h r hr
    · by_cases hp : (p == "") = true
      · simp only [ha, hp, if_true, if_false, Bool.false_eq_true] at hr ⊢
        exact h r hr
      · simp only [ha, hp, if_false, Bool.false_eq_true] at hr ⊢
        exact h r hr
  | finish n =>
    intro r hr
    simp only [CdmStep, CdmTaskFinish] at hr ⊢
    by_cases hc : (s.download_active && s.pending.isNone) = true
    · simp only [hc, if_true] at hr ⊢
      exact h r hr
    · simp only [hc, if_false, Bool.false_eq_true] at hr ⊢
      exact h r hr
  | tick =>
    intro r hr
    simp only [CdmStep, CdmCheckAsyncDownload] at hr ⊢
    by_cases ha : s.download_active
    · simp only [ha, if_true] at hr ⊢
      match hp : s.pending with
      | none =>
        simp only [hp] at hr ⊢
        exact h r hr
      | some n =>
        simp only [hp] at hr ⊢
        by_cases hu : (match s.cdm_info with
          | some r => r.status == n.status && r.tobt == n.tobt && r.tsat == n.tsat
              && r.runway == n.runway && r.sid == n.sid
          | none => false) = true
        · simp only [hu, if_true] at hr ⊢
          exact h r hr
        · simp only [hu, if_false, Bool.false_eq_true] at hr ⊢
          simp only [Option.some_inj] at hr
          subst hr
          rfl
    · simp only [ha, if_false, Bool.false_eq_true] at hr ⊢
      exact h r hr

/-- C4: with both the cached and the newly completed CDM record carrying
status `Success` (an unchanged successful refresh), agreement on `tobt`,
`tsat`, `runway` and `sid` makes the collect step discard the new record:
the cached record and the sequence number are untouched.  A completed
fetch whose `tobt` differs from the cached value is published and bumps
the sequence number by exactly one.  (The `r.seqno = s.cdm_seqno`
hypothesis is the reachability fact `CdmSeqnoConsistent`.) -/
theorem C4_cdm_dedup (s : CdmState) (r n : CdmInfo)
    (hact : s.download_active = true) (hpend : s.pending = some n)
    (hcache : s.cdm_info = some r) (hseq : r.seqno = s.cdm_seqno) :
    (r.status = kSuccess → n.status = kSuccess →
      r.tobt = n.tobt → r.tsat = n.tsat → r.runway = n.runway → r.sid = n.sid →
      (CdmCheckAsyncDownload s).2.cdm_info = some r ∧
      (CdmCheckAsyncDownload s).2.cdm_seqno = r.seqno) ∧
    (n.tobt ≠ r.tobt →
      (CdmCheckAsyncDownload s).2.cdm_info = some { n with seqno := r.seqno + 1 } ∧
      (CdmCheckAsyncDownload s).2.cdm_seqno = r.seqno + 1) := by
  constructor
  · intro h1 h2 h3 h4 h5 h6
    have hst : r.status = n.status := h1.trans h2.symm
    simp [CdmCheckAsyncDownload, hact, hpend, hcache, hst, h3, h4, h5, h6, hseq]
  · intro hne
    have hb : (r.tobt == n.tobt) = false := by
      simp [Ne.symm hne]
    simp [CdmCheckAsyncDownload, hact, hpend, hcache, hb, hseq]

/-- Records and state for the C4 witness: a cached successful record, an
identical refresh and a refresh with a different `tobt`. -/
def c4r : CdmInfo :=
  { seqno := 1, url := "https://cdm.example/EDDF.json", status := "Success",
    tobt := "0900", tsat := "0910", runway := "25C", sid := "TOBAK7F" }

def c4nSame : CdmInfo := { c4r with seqno := 0 }

def c4nDiff : CdmInfo := { c4nSame with tobt := "0915" }

def c4sSame : CdmState :=
  { cdm_info := some c4r, cdm_seqno := 1, download_active := true, pending := some c4nSame }

def c4sDiff : CdmState :=
  { cdm_info := some c4r, cdm_seqno := 1, download_active := true, pending := some c4nDiff }

/-- Witness for C4: the identical refresh keeps record and counter; the
changed `tobt` bumps the counter from 1 to 2. -/
theorem C4_cdm_dedup_witness :
    (CdmCheckAsyncDownload c4sSame).2.cdm_info = some c4r ∧
    (CdmCheckAsyncDownload c4sSame).2.cdm_seqno = 1 ∧
    (CdmCheckAsyncDownload c4sDiff).2.cdm_seqno = 2 := by
  have h1 := (C4_cdm_dedup c4sSame c4r c4nSame rfl rfl rfl rfl).1 rfl rfl rfl rfl rfl rfl
  have h2 := (C4_cdm_dedup c4sDiff c4r c4nDiff rfl rfl rfl rfl).2 (by decide)
  exact ⟨h1.1, h1.2, h2.2⟩

/-- C10: any completed CDM fetch differing from the cached record in at
least one of the five compared fields (`status`, `tobt`, `tsat`,
`runway`, `sid`) — in particular one carrying a failure status — replaces
the cached record and increments the sequence number by one; afterwards
every compared field of the cache is the new record's value, so the
previously cached values are no longer readable. -/
theorem C10_cdm_differing_fetch_replaces (s : CdmState) (r n : CdmInfo)
    (hact : s.download_active = true) (hpend : s.pending = some n)
    (hcache : s.cdm_info = some r)
    (hdiff : ¬ (r.status = n.status ∧ r.tobt = n.tobt ∧ r.tsat = n.tsat ∧
                r.runway = n.runway ∧ r.sid = n.sid)) :
    (CdmCheckAsyncDownload s).2.cdm_info = some { n with seqno := s.cdm_seqno + 1 } ∧
    (CdmCheckAsyncDownload s).2.cdm_seqno = s.cdm_seqno + 1 ∧
    (CdmCheckAsyncDownload s).2.cdm_info.map CdmInfo.status = some n.status ∧
    (CdmCheckAsyncDownload s).2.cdm_info.map CdmInfo.tobt = some n.tobt ∧
    (CdmCheckAsyncDownload s).2.cdm_info.map CdmInfo.tsat = some n.tsat ∧
    (CdmCheckAsyncDownload s).2.cdm_info.map CdmInfo.runway = some n.runway ∧
    (CdmCheckAsyncDownload s).2.cdm_info.map CdmInfo.sid = some n.sid := by
  have hb : (r.status == n.status && r.tobt == n.tobt && r.tsat == n.tsat &&
             r.runway == n.runway && r.sid == n.sid) = false := by
    rcases Bool.eq_false_or_eq_true (r.status == n.status && r.tobt == n.tobt
        && r.tsat == n.tsat && r.runway == n.runway && r.sid == n.sid) with ht | hf
    · exfalso
      simp only [Bool.and_eq_true, beq_iff_eq] at ht
      tauto
    · exact hf
  simp [CdmCheckAsyncDownload, hact, hpend, hcache, hb]

/-- Directory and record for the C10 witness: a directory that resolves
`EDDF` from an already retrieved roster, and the record `CdmGetParse`
produces for it when the flight-data download fails. -/
def c10Server : Server :=
  { name := "S1", url := "https://cdm.example", proto := .rpuig, retrieved := true,
    airports := [("EDDF", { icao := "EDDF", url := "https://cdm.example/EDDF.json",
                            proto := .rpuig })] }

def c10Dir : CdmDir := { servers := [c10Server] }

def c10New : CdmInfo := (CdmGetParse c10Dir [] .fetchFail "EDDF" "DLH123").1

def c10State : CdmState :=
  { cdm_info := some c4r, cdm_seqno := 1, download_active := true, pending := some c10New }

/-- Witness for C10: the failed refresh produced by `CdmGetParse` carries
status `"Failed to retrieve CDM data"`, differs from the cached
successful record, and collecting it replaces the cache (the old `tobt`
`"0900"` is gone) and bumps the counter to 2. -/
theorem C10_cdm_differing_fetch_replaces_witness :
    c10New.status = "Failed to retrieve CDM data" ∧
    (CdmCheckAsyncDownload c10State).2.cdm_info.map CdmInfo.status
      = some "Failed to retrieve CDM data" ∧
    (CdmCheckAsyncDownload c10State).2.cdm_info.map CdmInfo.tobt = some "" ∧
    (CdmCheckAsyncDownload c10State).2.cdm_seqno = 2 := by
  have h := C10_cdm_differing_fetch_replaces c10State c4r c10New rfl rfl rfl (by decide)
  exact ⟨by decide, h.2.2.1.trans (by decide), h.2.2.2.2.1.trans (by decide), h.2.1⟩

/-- C1 (amended): collecting a failed OFP fetch does not retain the
previous record — it replaces the cache with the freshly built record of
the failed attempt, whose `stale` flag is set, whose `seqno` is 0 (so the
data accessors report "not even stale data") and whose status is the
error string; the parser's success counter is untouched.  For failures
hit before field extraction (network error, unparseable JSON, upstream
non-`Success` status) every data field of the published record is the
empty string. -/
theorem C1_ofp_failure_clears_cache (s : OfpState) (oc : OfpFetchOutcome) (g : Nat)
    (hact : s.download_active = true) (hfail : oc.isFailure = true)
    (hpend : s.pending = some (OfpGetParse oc g).1) :
    (OfpGetParse oc g).2.1 = g ∧
    (OfpGetParse oc g).2.2 = false ∧
    (OfpGetParse oc g).1.stale = true ∧
    (OfpGetParse oc g).1.seqno = 0 ∧
    (OfpGetParse oc g).1.status ≠ kSuccess ∧
    (OfpCheckAsyncDownload s).2.ofp_info = some (OfpGetParse oc g).1 ∧
    (oc.isEarlyFailure = true → (OfpGetParse oc g).1.dataFieldsEmpty = true) := by
  cases oc with
  | netError =>
    refine ⟨rfl, rfl, rfl, rfl, ?_, ?_, fun _ => ?_⟩
    · exact (by decide : ("Network error" : String) ≠ kSuccess)
    · simp [OfpCheckAsyncDownload, hact, hpend, OfpGetParse, kSuccess]
    · exact (by decide :
        ({ status := "Network error", stale := true } : OfpInfo).dataFieldsEmpty = true)
  | invalidJson =>
    refine ⟨rfl, rfl, rfl, rfl, ?_, ?_, fun _ => ?_⟩
    · exact (by decide : ("Invalid JSON data" : String) ≠ kSuccess)
    · simp [OfpCheckAsyncDownload, hact, hpend, OfpGetParse, kSuccess]
    · exact (by decide :
        ({ status := "Invalid JSON data", stale := true } : OfpInfo).dataFieldsEmpty = true)
  | parsedStatus st rest =>
    by_cases hs : (st != kSuccess) = true
    · have hne : st ≠ kSuccess := by simpa using hs
      refine ⟨?_, ?_, ?_, ?_, ?_, ?_, fun _ => ?_⟩
      · simp [OfpGetParse, hs]
      · simp [OfpGetParse, hs]
      · simp [OfpGetParse, hs]
      · simp [OfpGetParse, hs]
      · simp [OfpGetParse, hs, hne]
      · simp [OfpCheckAsyncDownload, hact, hpend, OfpGetParse, hs]
      · simp [OfpGetParse, hs, OfpInfo.dataFieldsEmpty]
    · have hst : st = kSuccess := by simpa using hs
      cases rest with
      | extracted d =>
        exfalso
        simp [OfpFetchOutcome.isFailure, hst] at hfail
      | schemaViolation part =>
        subst hst
        refine ⟨?_, ?_, ?_, ?_, ?_, ?_, fun hearly => ?_⟩
        · simp [OfpGetParse]
        · simp [OfpGetParse]
        · simp [OfpGetParse]
        · simp [OfpGetParse]
        · simp [OfpGetParse, kSuccess]
        · simp [OfpCheckAsyncDownload, hact, hpend, OfpGetParse, kSuccess]
        · exact absurd hearly (by simp [OfpFetchOutcome.isEarlyFailure])


/-- A cached successful OFP record and the coordinator state in which a
network-failed refresh has just completed, for the C1 witness and
counterexample. -/
def c1Prev : OfpInfo := { stale := false, seqno := 1, status := "Success", origin := "EDDF" }

def c1State : OfpState :=
  { ofp_info := some c1Prev, download_active := true,
    pending := some (OfpGetParse .netError 1).1 }

/-- Witness for C1 (amended) at a network error with counter 1. -/
theorem C1_ofp_failure_clears_cache_witness :
    (OfpGetParse .netError 1).1.stale = true ∧
    (OfpGetParse .netError 1).1.seqno = 0 ∧
    (OfpCheckAsyncDownload c1State).2.ofp_info = some (OfpGetParse .netError 1).1 ∧
    (OfpGetParse .netError 1).1.dataFieldsEmpty = true := by
  have h := C1_ofp_failure_clears_cache c1State .netError 1 rfl rfl rfl
  exact ⟨h.2.2.1, h.2.2.2.1, h.2.2.2.2.2.1, h.2.2.2.2.2.2 rfl⟩

/-- Counterexample to C1 as stated: with `"EDDF"`/seqno 1 cached from a
successful fetch, collecting a failed fetch does not leave the data
fields byte-for-byte intact with the sequence number unchanged — the
cached record now has `origin = ""` and `seqno = 0` (`stale` is indeed
true). -/
theorem C1_ofp_failure_clears_cache_cex :
    (OfpCheckAsyncDownload c1State).2.ofp_info ≠ some { c1Prev with stale := true } ∧
    (OfpCheckAsyncDownload c1State).2.ofp_info.map OfpInfo.origin = some "" ∧
    (OfpCheckAsyncDownload c1State).2.ofp_info.map OfpInfo.seqno = some 0 ∧
    (OfpCheckAsyncDownload c1State).2.ofp_info.map OfpInfo.stale = some true ∧
    c1Prev.origin = "EDDF" ∧ c1Prev.seqno = 1 := by decide

/-- C3 (amended): a fetch completing with status `Success` publishes a
record with `stale = false` and `seqno = g + 1` where `g` is the parser's
static success counter — the counter steps by exactly one per successful
fetch.  The published `seqno` equals the previously cached record's
`seqno + 1` whenever the previous collected fetch was itself successful
(so that the cached `seqno` equals the counter); after a failed fetch the
cached `seqno` has been reset to 0, and the next success does not publish
`0 + 1`. -/
theorem C3_ofp_success_seqno (s : OfpState) (d : OfpInfo) (g : Nat)
    (hact : s.download_active = true)
    (hpend : s.pending = some (OfpGetParse (.parsedStatus kSuccess (.extracted d)) g).1) :
    (OfpGetParse (.parsedStatus kSuccess (.extracted d)) g).1.seqno = g + 1 ∧
    (OfpGetParse (.parsedStatus kSuccess (.extracted d)) g).1.stale = false ∧
    (OfpGetParse (.parsedStatus kSuccess (.extracted d)) g).2.1 = g + 1 ∧
    (OfpCheckAsyncDownload s).2.ofp_info.map OfpInfo.seqno = some (g + 1) ∧
    (OfpCheckAsyncDownload s).2.ofp_info.map OfpInfo.stale = some false ∧
    (∀ prev, s.ofp_info = some prev → prev.seqno = g →
      (OfpGetParse (.parsedStatus kSuccess (.extracted d)) g).1.seqno = prev.seqno + 1) := by
  refine ⟨by simp [OfpGetParse], by simp [OfpGetParse], by simp [OfpGetParse], ?_, ?_,
    fun prev _ hseq => by simp [OfpGetParse, hseq]⟩ <;>
    simp [OfpCheckAsyncDownload, hact, hpend, OfpGetParse]

/-- Concrete successful parse and collect state for the C3 witness. -/
def c3d : OfpInfo := { origin := "EDDF", altitude := "36000" }

def c3Succ : OfpInfo := (OfpGetParse (.parsedStatus kSuccess (.extracted c3d)) 0).1

def c3State : OfpState :=
  { ofp_info := none, download_active := true, pending := some c3Succ }

/-- Witness for C3 (amended): the first successful fetch publishes seqno 1
with `stale` cleared. -/
theorem C3_ofp_success_seqno_witness :
    c3Succ.seqno = 1 ∧ c3Succ.stale = false ∧
    (OfpCheckAsyncDownload c3State).2.ofp_info.map OfpInfo.seqno = some 1 := by
  have h := C3_ofp_success_seqno c3State c3d 0 rfl rfl
  exact ⟨h.1, h.2.1, h.2.2.2.1⟩

/-- The run refuting C3 as stated: success, network failure, success. -/
def c3Run1 : Nat × OfpState := OfpRound "123" (.parsedStatus "Success" (.extracted {})) (0, {})

def c3Run2 : Nat × OfpState := OfpRound "123" .netError c3Run1

def c3Run3 : Nat × OfpState := OfpRound "123" (.parsedStatus "Success" (.extracted {})) c3Run2

/-- Counterexample to C3 as stated: after success (cached seqno 1) and a
failed refresh (cached seqno 0), the next successful fetch publishes
seqno 2, which is not the previously cached record's seqno plus one. -/
theorem C3_ofp_success_seqno_cex :
    c3Run1.2.ofp_info.map OfpInfo.seqno = some 1 ∧
    c3Run2.2.ofp_info.map OfpInfo.seqno = some 0 ∧
    c3Run3.2.ofp_info.map OfpInfo.seqno = some 2 ∧
    (2 : Nat) ≠ 0 + 1 := by decide

/-- C2 (amended): an enabled configuration entry with an unrecognized
protocol tag makes `CdmInit` return failure, but initialization is not
all-or-nothing: the servers registered after the call are exactly the
pre-existing ones followed by one server per enabled, recognized entry
strictly before the first offending entry; the offending entry and
everything after it register nothing. -/
theorem C2_init_bad_tag_keeps_prefix (servers0 : List Server) (pre : List CfgServer)
    (e : CfgServer) (rest : List CfgServer)
    (hpre : ∀ x ∈ pre, x.recognized = true) (hbad : e.recognized = false) :
    CdmInit servers0 (pre ++ e :: rest) =
      (false, servers0 ++ pre.filterMap CfgServer.server) := by
  have he : (e.enabled = true ∧ ¬ e.protocol = "rpuig") ∧ ¬ e.protocol = "vacdm_v1" := by
    simpa [CfgServer.recognized] using hbad
  obtain ⟨⟨he1, he2⟩, he3⟩ := he
  unfold CdmInit
  revert hpre
  induction pre generalizing servers0 with
  | nil =>
    intro _
    simp [CdmInitLoop, he1, he2, he3]
  | cons x pre' ih =>
    intro hpre
    have hx : x.recognized = true := hpre x (by simp)
    have hpre' : ∀ y ∈ pre', y.recognized = true := fun y hy => hpre y (by simp [hy])
    simp only [List.cons_append, CdmInitLoop, List.append_eq]
    by_cases hen : x.enabled = true
    · by_cases hr1 : x.protocol = "rpuig"
      · rw [if_neg (by simp [hen]), if_pos (by simp [hr1])]
        rw [ih _ hpre']
        simp [CfgServer.server, hen, hr1]
      · by_cases hr2 : x.protocol = "vacdm_v1"
        · rw [if_neg (by simp [hen]), if_neg (by simp [hr1]), if_pos (by simp [hr2])]
          rw [ih _ hpre']
          simp [CfgServer.server, hen, hr1, hr2]
        · exfalso
          simp [CfgServer.recognized, hen, hr1, hr2] at hx
    · rw [if_pos (by simp [hen])]
      rw [ih _ hpre']
      simp [CfgServer.server, hen]

/-- Configuration entries for the C2 witness and counterexample: a good
`rpuig` entry followed by one with an unknown protocol tag. -/
def c2Good : CfgServer :=
  { name := "A", protocol := "rpuig", url := "https://a.example", enabled := true }

def c2Bad : CfgServer :=
  { name := "B", protocol := "bogus", url := "https://b.example", enabled := true }

/-- Witness for C2 (amended): the failing `CdmInit` keeps the server built
from the recognized entry before the offending one. -/
theorem C2_init_bad_tag_keeps_prefix_witness :
    CdmInit [] [c2Good, c2Bad] = (false, [MkServer "A" "https://a.example" .rpuig]) := by
  have h := C2_init_bad_tag_keeps_prefix [] [c2Good] c2Bad [] (by decide) (by decide)
  exact h.trans (by decide)

/-- Counterexample to C2 as stated: on `[c2Good, c2Bad]`, `CdmInit` fails
but the server list is not left as it was before the call — the first
entry's server has been registered. -/
theorem C2_init_bad_tag_keeps_prefix_cex :
    (CdmInit [] [c2Good, c2Bad]).1 = false ∧ (CdmInit [] [c2Good, c2Bad]).2 ≠ [] := by
  decide

/-- One failed roster load: the server after `RetrieveAirports` hits a
null `GetJson` result. -/
def FailRoster (sv : Server) : Server := (sv.RetrieveAirports .fail).2.1

/-- A scan over only-dead servers finds nothing, changes nothing, consumes
no oracle and performs no network call. -/
theorem FindUrlLoop_all_dead (icao : String) (svs : List Server) (rs : List RosterFetch)
    (h : ∀ s ∈ svs, s.is_dead = true) :
    FindUrlLoop icao svs rs = { hit := none, servers := svs, oracles := rs, calls := 0 } := by
  induction svs with
  | nil => rfl
  | cons sv rest ih =>
    have hd : sv.is_dead = true := h sv (by simp)
    have hrest := ih (fun s hs => h s (by simp [hs]))
    simp [FindUrlLoop, hd, hrest]

/-- C5: a fresh server dies after exactly `kMaxRetries = 3` consecutive
failed roster loads (each of which is one network call); `retries_left`
never increases under any roster outcome, so a dead server stays dead;
the `FindUrl` scan passes a dead server through untouched, consuming no
oracle and making no network call on its behalf; and resolving against a
directory of dead servers performs zero network calls and leaves the
directory exactly as it was. -/
theorem C5_retry_until_dead (sv : Server) (r : RosterFetch) (d : CdmDir)
    (rs : List RosterFetch) (icao name url : String) (proto : CdmProtocol)
    (hp : proto ≠ CdmProtocol.invalid) :
    (FailRoster (FailRoster (FailRoster (MkServer name url proto)))).is_dead = true ∧
    (¬ sv.retrieved = true → ¬ sv.proto = CdmProtocol.invalid →
      (sv.RetrieveAirports .fail).2.2 = 1) ∧
    ((sv.RetrieveAirports r).2.1.retries_left ≤ sv.retries_left) ∧
    (sv.is_dead = true → (sv.RetrieveAirports r).2.1.is_dead = true) ∧
    (sv.is_dead = true → ∀ svs,
      FindUrlLoop icao (sv :: svs) rs =
        { FindUrlLoop icao svs rs with
            servers := sv :: (FindUrlLoop icao svs rs).servers }) ∧
    ((∀ s ∈ d.servers, s.is_dead = true) →
      (FindUrl d rs icao).calls = 0 ∧ (FindUrl d rs icao).dir = d) := by
  have hmono : ∀ (sv' : Server) (r' : RosterFetch),
      (sv'.RetrieveAirports r').2.1.retries_left ≤ sv'.retries_left := by
    intro sv' r'
    unfold Server.RetrieveAirports
    by_cases h1 : sv'.retrieved = true
    · simp [h1]
    · by_cases h2 : (sv'.proto == CdmProtocol.invalid) = true
      · simp [h1, h2]
      · cases r' <;> simp [h1, h2]
  refine ⟨?_, ?_, hmono sv r, ?_, ?_, ?_⟩
  · cases proto with
    | invalid => exact absurd rfl hp
    | rpuig =>
      simp [FailRoster, MkServer, Server.RetrieveAirports, Server.is_dead, kMaxRetries]
    | vacdmV1 =>
      simp [FailRoster, MkServer, Server.RetrieveAirports, Server.is_dead, kMaxRetries]
  · intro h1 h2
    simp [Server.RetrieveAirports, h1, h2]
  · intro hd
    have := hmono sv r
    simp only [Server.is_dead, decide_eq_true_eq] at hd ⊢
    omega
  · intro hd svs
    simp [FindUrlLoop, hd]
  · intro hdead
    unfold FindUrl
    by_cases hm : (icao == d.icao_c) = true
    · simp [hm]
    · rw [FindUrlLoop_all_dead icao d.servers rs hdead]
      simp [hm]

/-- A concrete dead server for the C5 witness. -/
def c5Dead : Server := { name := "S1", url := "https://a.example", proto := .rpuig,
                         retries_left := 0 }

/-- Witness for C5: three failed roster loads kill a concrete fresh
server, and a directory holding only a dead server resolves with zero
network calls and no state change. -/
theorem C5_retry_until_dead_witness :
    (FailRoster (FailRoster (FailRoster (MkServer "S1" "https://a.example" .rpuig)))).is_dead
      = true ∧
    (FindUrl { servers := [c5Dead] } [] "EDDF").calls = 0 ∧
    (FindUrl { servers := [c5Dead] } [] "EDDF").dir = { servers := [c5Dead] } := by
  have h := C5_retry_until_dead c5Dead .fail { servers := [c5Dead] } [] "EDDF"
    "S1" "https://a.example" .rpuig (by decide)
  have h6 := h.2.2.2.2.2 (by decide)
  exact ⟨h.1, h6.1, h6.2⟩

/-- C7 (as holding for successful resolutions): a memo hit answers
immediately with no directory interaction; a scan that finds the airport
stores exactly that code in the one-entry memo — overwriting whatever
code was there, so a successful resolution of a different code evicts it
— and an immediately repeated resolution of the same code is answered
from the memo with zero roster network calls; a scan that finds nothing
leaves the memo untouched. -/
theorem C7_memoization (d : CdmDir) (rs rs2 : List RosterFetch) (c u : String)
    (p : CdmProtocol) :
    (c = d.icao_c →
      FindUrl d rs c = { url := d.url_c, proto := d.proto_c, dir := d,
                         oracles := rs, calls := 0 }) ∧
    ((FindUrlLoop c d.servers rs).hit = some (u, p) → c ≠ d.icao_c →
      (FindUrl d rs c).url = u ∧ (FindUrl d rs c).proto = p ∧
      (FindUrl d rs c).dir.icao_c = c ∧ (FindUrl d rs c).dir.url_c = u ∧
      (FindUrl d rs c).dir.proto_c = p ∧
      FindUrl (FindUrl d rs c).dir rs2 c =
        { url := u, proto := p, dir := (FindUrl d rs c).dir,
          oracles := rs2, calls := 0 }) ∧
    ((FindUrlLoop c d.servers rs).hit = none →
      (FindUrl d rs c).dir.icao_c = d.icao_c ∧ (FindUrl d rs c).dir.url_c = d.url_c ∧
      (FindUrl d rs c).dir.proto_c = d.proto_c) := by
  refine ⟨?_, ?_, ?_⟩
  · intro hm
    simp [FindUrl, hm]
  · intro hhit hne
    have hm : (c == d.icao_c) = false := by simp [hne]
    simp [FindUrl, hm, hhit]
  · intro hnone
    rcases Bool.eq_false_or_eq_true (c == d.icao_c) with ht | hf
    · simp [FindUrl, ht]
    · simp [FindUrl, hf, hnone]

/-- Witness for C7 (amended): resolving `"EDDF"` against a directory that
serves it stores `"EDDF"` in the memo, and resolving it again immediately
is answered from the memo with zero roster network calls. -/
theorem C7_memoization_witness :
    (FindUrl c10Dir [] "EDDF").dir.icao_c = "EDDF" ∧
    FindUrl (FindUrl c10Dir [] "EDDF").dir [] "EDDF" =
      { url := "https://cdm.example/EDDF.json", proto := .rpuig,
        dir := (FindUrl c10Dir [] "EDDF").dir, oracles := [], calls := 0 } := by
  have h := (C7_memoization c10Dir [] [] "EDDF" "https://cdm.example/EDDF.json"
    .rpuig).2.1 (by decide) (by decide)
  exact ⟨h.2.2.1, h.2.2.2.2.2⟩

/-- Directory with one fresh server whose roster download fails, for the
C7 counterexample. -/
def c7Server : Server := { name := "S1", url := "https://cdm.example", proto := .rpuig }

def c7Dir : CdmDir := { servers := [c7Server] }

/-- The first resolution of `"EDDF"` against `c7Dir` (the roster fetch
fails, nothing is found). -/
def c7First : FindUrlRes := FindUrl c7Dir [.fail] "EDDF"

/-- Resolving `"EDDF"` again right afterwards. -/
def c7Second : FindUrlRes := FindUrl c7First.dir [.fail] "EDDF"

/-- Counterexample to C7 as stated: after a resolution of `"EDDF"` that
did not succeed (the only server's roster load failed), immediately
resolving `"EDDF"` again is not answered from the memo — it performs one
more roster network call, not zero. -/
theorem C7_memoization_cex :
    c7First.calls = 1 ∧ c7Second.calls = 1 ∧ c7Second.calls ≠ 0 := by decide

/-- C8: `ExtractHHMM t` is the empty string when `t` is the epoch sentinel
`"1969-12-31T23:59:59.999Z"` or has fewer than 16 characters; for every
other `t` it is exactly the concatenation of the characters at positions
11-12 and 14-15, each indexed within bounds. -/
theorem C8_ExtractHHMM_spec (t : String) :
    (t = kEpochSentinel ∨ t.length < 16 → ExtractHHMM t = "") ∧
    (t ≠ kEpochSentinel → ∀ h : 16 ≤ t.data.length,
      (ExtractHHMM t).data =
        [t.data.get ⟨11, by omega⟩, t.data.get ⟨12, by omega⟩,
         t.data.get ⟨14, by omega⟩, t.data.get ⟨15, by omega⟩]) := by
  constructor
  · intro hc
    unfold ExtractHHMM
    rcases hc with hc | hc
    · simp [hc]
    · simp [hc]
  · intro hne h
    have hlen : ¬ t.length < 16 := by
      simp only [String.length]
      omega
    unfold ExtractHHMM
    rw [if_neg (by simp [hne, hlen])]
    rw [show ∀ l : List Char, (String.mk l).data = l from fun _ => rfl,
        take_two_drop t.data 11 (by omega), take_two_drop t.data 14 (by omega)]
    rfl

/-- Witness for C8 at concrete inputs: the sentinel maps to the empty
string and a sample vACDM timestamp maps to its hour and minute digits. -/
theorem C8_ExtractHHMM_spec_witness :
    ExtractHHMM "1969-12-31T23:59:59.999Z" = "" ∧
    (ExtractHHMM "2025-07-28T09:45:06.694Z").data = ['0', '9', '4', '5'] := by
  constructor
  · exact (C8_ExtractHHMM_spec _).1 (Or.inl rfl)
  · rw [(C8_ExtractHHMM_spec "2025-07-28T09:45:06.694Z").2 (by decide) (by decide)]
    rfl

/-- C9: `GenericDataAcc` in length-query mode returns `length + 1` (the
trailing NUL included); with a buffer it rejects `n ≤ 0`, negative
offsets and offsets past the terminator with result 0 and no bytes
copied; otherwise it returns `min n (length + 1 - ofs)`, copies exactly
that many bytes, and every copied byte comes from inside the
NUL-terminated buffer — no out-of-range read. -/
theorem C9_GenericDataAcc_spec (data : List Char) (ofs n : Int) :
    (GenericDataAcc data true ofs n = ((data.length : Int) + 1, [])) ∧
    (n ≤ 0 ∨ ofs < 0 ∨ ofs ≥ (data.length : Int) + 1 →
      GenericDataAcc data false ofs n = (0, [])) ∧
    (0 < n → 0 ≤ ofs → ofs < (data.length : Int) + 1 →
      (GenericDataAcc data false ofs n).1 = min n ((data.length : Int) + 1 - ofs) ∧
      ((GenericDataAcc data false ofs n).2).length
          = (min n ((data.length : Int) + 1 - ofs)).toNat ∧
      ofs.toNat + (min n ((data.length : Int) + 1 - ofs)).toNat ≤ data.length + 1 ∧
      ∀ (i : Nat) (hi : i < ((GenericDataAcc data false ofs n).2).length),
        ∃ hj : ofs.toNat + i < (data ++ [cNul]).length,
          ((GenericDataAcc data false ofs n).2).get ⟨i, hi⟩
            = (data ++ [cNul]).get ⟨ofs.toNat + i, hj⟩) := by
  refine ⟨rfl, ?_, ?_⟩
  · intro hrej
    have hb : (n ≤ 0 || ofs < 0 || ofs ≥ (data.length : Int) + 1) = true := by
      rcases hrej with h | h | h <;> simp [h]
    simp [GenericDataAcc, hb]
  · intro hn hofs hlt
    have hb : (n ≤ 0 || ofs < 0 || ofs ≥ (data.length : Int) + 1) = false := by
      simp
      omega
    have hres : GenericDataAcc data false ofs n =
        (min n ((data.length : Int) + 1 - ofs),
         ((data ++ [cNul]).drop ofs.toNat).take (min n ((data.length : Int) + 1 - ofs)).toNat) := by
      simp [GenericDataAcc, hb]
    rw [hres]
    have hlen2 : (((data ++ [cNul]).drop ofs.toNat).take
        (min n ((data.length : Int) + 1 - ofs)).toNat).length
        = (min n ((data.length : Int) + 1 - ofs)).toNat := by
      simp [List.length_take, List.length_drop]
      omega
    refine ⟨rfl, hlen2, by omega, ?_⟩
    intro i hi
    rw [hlen2] at hi
    have hj : ofs.toNat + i < (data ++ [cNul]).length := by
      simp only [List.length_append, List.length_cons, List.length_nil]
      omega
    refine ⟨hj, ?_⟩
    simp only [List.get_eq_getElem]
    rw [List.getElem_take, List.getElem_drop]

/-- Witness for C9 at the concrete string `"abc"`: length query answers 4;
an offset past the terminator answers 0; a read at offset 2 with room for
100 bytes copies the 2 bytes `'c'` and NUL. -/
theorem C9_GenericDataAcc_spec_witness :
    GenericDataAcc "abc".data true 0 100 = (4, []) ∧
    GenericDataAcc "abc".data false 4 100 = (0, []) ∧
    (GenericDataAcc "abc".data false 2 100).1 = 2 ∧
    ((GenericDataAcc "abc".data false 2 100).2).length = 2 := by
  refine ⟨(C9_GenericDataAcc_spec "abc".data 0 100).1, ?_, ?_, ?_⟩
  · exact (C9_GenericDataAcc_spec "abc".data 4 100).2.1 (Or.inr (Or.inr (by decide)))
  · have h := ((C9_GenericDataAcc_spec "abc".data 2 100).2.2 (by decide) (by decide)
      (by decide)).1
    rw [h]
    decide
  · have h := ((C9_GenericDataAcc_spec "abc".data 2 100).2.2 (by decide) (by decide)
      (by decide)).2.1
    rw [h]
    decide
